import Mathlib

/-!
Verification of the Collateral-Analysis-Service document classification API
(src/app.py) against its specification.

The Flask handlers are shallowly embedded: the classifier model, the OCR
engine and the filesystem outcomes (file save, PDF rasterization, sidecar
metadata file) are inputs of the embedded functions, and each Python call
that may raise is modelled with `Except`/`Option`.  The thread pool's
`as_completed` iteration is modelled by an explicit completion order: a
list of page indices that is a permutation of the submitted task indices.
-/

namespace CollateralAnalysis

/-- One recognized line as returned by the OCR engine: `line` in the list
`result[0]`, holding a detection box and `line[1] = (text, score)`;
the code reads `line[1][0]`. -/
structure OcrLine where
  box : List (ℚ × ℚ)
  text : String
  score : ℚ

/-- Outcome of the call `ocr_engine.ocr(np.array(img), cls=True)` in
`ocr_page` (src/app.py line 40), as observed by the surrounding code:
the call may raise; the returned value may be falsy (`None` or `[]`);
`result[0]` may be `None`; otherwise `result[0]` is a list of lines. -/
inductive OcrEngineResult where
  | fault : OcrEngineResult
  | falsy : OcrEngineResult
  | firstNone : OcrEngineResult
  | lines : List OcrLine → OcrEngineResult

/-- src/app.py lines 32-51, `ocr_page`: run the engine on one image and
return `(page_index, text)`; any exception is caught and replaced by the
empty string; a falsy result or a `None` first element also yields the
empty string; otherwise the line texts are joined with single spaces. -/
def ocr_page {Img : Type} (engine : Img → OcrEngineResult) (img_data : Nat × Img) :
    Nat × String :=
  match engine img_data.2 with
  | .fault => (img_data.1, "")
  | .falsy => (img_data.1, "")
  | .firstNone => (img_data.1, "")
  | .lines ls => (img_data.1, String.intercalate " " (ls.map OcrLine.text))

/-- The text that the OCR task for page index `i` produces: `ocr_page`
applied to the pair `(i, images[i])` built by `enumerate(images)`
(src/app.py lines 99-102).  Indices outside the image list never arise
for a completion order that is a permutation of the task indices. -/
def page_text {Img : Type} (engine : Img → OcrEngineResult) (images : List Img)
    (i : Nat) : String :=
  match images[i]? with
  | some img => (ocr_page engine (i, img)).2
  | none => ""

/-- Item assignment `page_texts[page_index] = text` on the Python dict,
observed only through lookups (src/app.py line 107). -/
def dict_set (d : Nat → Option String) (k : Nat) (v : String) :
    Nat → Option String :=
  fun j => if j = k then some v else d j

/-- The collection loop over `as_completed(future_to_page)`
(src/app.py lines 104-111): starting from the empty dict, store each
completed page's text keyed by its original index, in the given
completion order. -/
def collect_texts {Img : Type} (engine : Img → OcrEngineResult) (images : List Img)
    (order : List Nat) : Nat → Option String :=
  order.foldl (fun d i => dict_set d i (page_text engine images i)) (fun _ => none)

/-- The loaded classifier object `doc_model`: `predict` and, when the
attribute exists at all, `predict_proba`; either call may raise.  The
`py_type` field stands for `str(type(doc_model))`. -/
structure DocModel where
  py_type : String
  predict : List String → Except Unit (List String)
  predict_proba : Option (List String → Except Unit (List (List ℚ)))

/-- One entry of the `predictions` array (src/app.py lines 130-143). -/
structure Prediction where
  page : Nat
  predicted_label : String
  confidence : Option ℚ
  text_length : Nat
deriving DecidableEq

/-- The body of the try block at src/app.py lines 118-135 for one page:
`prediction = doc_model.predict([text])`, then the inner try computing
`confidence = float(max(prediction_proba[0]))` where only a missing
`predict_proba` attribute is recovered as `confidence = None`, then the
indexing `prediction[0]` performed while building the response entry.
`Except.error ()` marks an exception that escapes to the outer handler:
a raising `predict`, a raising `predict_proba`, `prediction_proba[0]` on
an empty result, `max()` of an empty row, or `prediction[0]` on an empty
prediction list. -/
def classify_attempt (m : DocModel) (text : String) :
    Except Unit (String × Option ℚ) := do
  let prediction ← m.predict [text]
  let confidence ← match m.predict_proba with
    | none => Except.ok (none : Option ℚ)
    | some pp => do
      let proba ← pp [text]
      match proba with
      | [] => Except.error ()
      | row :: _ =>
        match row with
        | [] => Except.error ()
        | c :: cs => Except.ok (some (cs.foldl max c))
  match prediction with
  | [] => Except.error ()
  | label :: _ => Except.ok (label, confidence)

/-- src/app.py lines 118-143: classification of one page, with the outer
per-page exception handler that substitutes the sentinel entry
`{page: i+1, predicted_label: "PREDICTION_ERROR", confidence: None,
text_length: len(text)}`. -/
def classify_page (m : DocModel) (i : Nat) (text : String) : Prediction :=
  match classify_attempt m text with
  | .ok lc => ⟨i + 1, lc.1, lc.2, text.length⟩
  | .error _ => ⟨i + 1, "PREDICTION_ERROR", none, text.length⟩

/-- src/app.py lines 113-143: the prediction loop `for i in range(len(images))`
with `text = page_texts.get(i, "")`. -/
def build_predictions {Img : Type} (m : DocModel) (engine : Img → OcrEngineResult)
    (images : List Img) (order : List Nat) : List Prediction :=
  (List.range images.length).map fun i =>
    classify_page m i ((collect_texts engine images order i).getD "")

/-- Python `s.lower()` on the filename: per-character lowercasing. -/
def py_lower (s : String) : String := String.mk (s.data.map Char.toLower)

/-- Python `s.endswith(suf)`: suffix test on the character sequence. -/
def py_endswith (s suf : String) : Bool := suf.data.isSuffixOf s.data

/-- A `/predict` request together with the environment behaviour it will
meet: whether the multipart form has a `file` part, the uploaded
filename, whether `file.save` into the temporary file raises (with the
exception's message), the outcome of `convert_from_path` (a rasterization
fault's message, or the list of page images), and the order in which the
OCR futures complete. -/
structure PredictRequest (Img : Type) where
  hasFilePart : Bool
  filename : String
  saveFault : Option String
  rasterize : Except String (List Img)
  completionOrder : List Nat

/-- The JSON body returned on success (src/app.py lines 150-155). -/
structure SuccessBody where
  success : Bool
  filename : String
  page_count : Nat
  predictions : List Prediction
deriving DecidableEq

/-- The response of `/predict`: an error body with its HTTP status and,
for status 500, the `details` string, or the 200 success body. -/
inductive PredictResponse where
  | failure (status : Nat) (error : String) (details : Option String)
  | success (body : SuccessBody)
deriving DecidableEq

/-- HTTP status of a `/predict` response; `jsonify(...)` with no explicit
status returns 200. -/
def response_status : PredictResponse → Nat
  | .failure s _ _ => s
  | .success _ => 200

/-- What a `/predict` request did to the world besides its response:
whether `request.files` was consulted, whether the temporary upload file
was created on disk, and whether it was removed again before returning. -/
structure PredictOutcome where
  response : PredictResponse
  filesAccessed : Bool
  tempCreated : Bool
  tempRemoved : Bool
deriving DecidableEq

/-- src/app.py lines 64-165, `predict_document_type`.  The validation
cascade runs first; the temporary file is created when the
`NamedTemporaryFile` block is entered.  If `file.save` raises, the
variable `temp_path` was never bound, so the `os.unlink(temp_path)` in
the exception handler raises `NameError`, which the bare `except: pass`
swallows: the temporary file is not removed on that path.  After a
successful save, both the rasterization-fault path and the success path
unlink the file. -/
def predict_document_type {Img : Type} (doc_model : Option DocModel)
    (engine : Img → OcrEngineResult) (req : PredictRequest Img) : PredictOutcome :=
  match doc_model with
  | none =>
    ⟨.failure 503 "Document classification model not loaded. Cannot perform prediction." none,
      false, false, false⟩
  | some m =>
    if req.hasFilePart = false then
      ⟨.failure 400 "No file part in the request" none, true, false, false⟩
    else if req.filename = "" then
      ⟨.failure 400 "No file selected for uploading" none, true, false, false⟩
    else if py_endswith (py_lower req.filename) ".pdf" = false then
      ⟨.failure 400 "Only PDF files are supported" none, true, false, false⟩
    else
      match req.saveFault with
      | some msg =>
        ⟨.failure 500 "Failed to process PDF" (some msg), true, true, false⟩
      | none =>
        match req.rasterize with
        | .error msg =>
          ⟨.failure 500 "Failed to process PDF" (some msg), true, true, true⟩
        | .ok images =>
          let predictions := build_predictions m engine images req.completionOrder
          ⟨.success ⟨true, req.filename, predictions.length, predictions⟩,
            true, true, true⟩

/-- The sidecar metadata file next to the model file, as `/model-info`
meets it: absent (`FileNotFoundError`, recovered as an empty dict),
unreadable (`json.load` raises, escaping to the 500 handler), or a parsed
JSON object, modelled as an association list from key to the verbatim
JSON value. -/
inductive SidecarFile where
  | absent : SidecarFile
  | malformed : String → SidecarFile
  | content : List (String × String) → SidecarFile

/-- The five metadata fields `/model-info` copies out of the sidecar
dict with `metadata.get(...)` (src/app.py lines 198-204); note that
`supported_labels` is read from the key `labels`. -/
structure MetaFields where
  accuracy : Option String
  training_samples : Option String
  test_samples : Option String
  supported_labels : Option String
  min_accuracy_threshold : Option String
deriving DecidableEq

/-- The JSON body of a `/model-info` response. -/
structure ModelInfoBody where
  model_loaded : Bool
  model_type : Option String
  model_path : Option String
  error : Option String
  meta : Option MetaFields
deriving DecidableEq

/-- A `/model-info` response: HTTP status and body. -/
structure ModelInfoResponse where
  status : Nat
  body : ModelInfoBody
deriving DecidableEq

/-- src/app.py lines 167-212, `model_info`: 503 with `model_loaded: false`
when no model is loaded; otherwise read the sidecar (`FileNotFoundError`
leaves `metadata = {}`; any other fault hits the 500 handler), answer
with the model type and path, and add the metadata fields only when the
dict is non-empty (`if metadata:`). -/
def model_info (doc_model : Option DocModel) (model_path : String)
    (sidecar : SidecarFile) : ModelInfoResponse :=
  match doc_model with
  | none =>
    ⟨503, ⟨false, none, none, some "Document classification model not loaded", none⟩⟩
  | some m =>
    match sidecar with
    | .malformed msg =>
      ⟨500, ⟨true, none, none,
        some ("Could not retrieve model information: " ++ msg), none⟩⟩
    | .absent =>
      ⟨200, ⟨true, some m.py_type, some model_path, none, none⟩⟩
    | .content kv =>
      if kv.isEmpty then
        ⟨200, ⟨true, some m.py_type, some model_path, none, none⟩⟩
      else
        ⟨200, ⟨true, some m.py_type, some model_path, none,
          some ⟨kv.lookup "accuracy", kv.lookup "training_samples",
            kv.lookup "test_samples", kv.lookup "labels",
            kv.lookup "min_accuracy_threshold"⟩⟩⟩

/-! ## Lemmas about the collection dict -/

/-- Once the dict maps `k` to the text of page `k`, further insertions of
the collection loop keep that binding: an insertion for another index
leaves it untouched, and a (hypothetical) re-insertion for `k` writes the
same value again. -/
theorem collect_foldl_preserve {Img : Type} (engine : Img → OcrEngineResult)
    (images : List Img) (order : List Nat) (k : Nat) :
    ∀ d : Nat → Option String, d k = some (page_text engine images k) →
      (order.foldl (fun d i => dict_set d i (page_text engine images i)) d) k
        = some (page_text engine images k) := by
  induction order with
  | nil => intro d h; simpa using h
  | cons j rest ih =>
    intro d h
    rw [List.foldl_cons]
    apply ih
    by_cases hk : k = j
    · subst hk; simp [dict_set]
    · simp [dict_set, hk, h]

/-- Any index that occurs in the completion order ends up bound to its
own page's text, whatever the surrounding order. -/
theorem collect_foldl_lookup {Img : Type} (engine : Img → OcrEngineResult)
    (images : List Img) :
    ∀ (order : List Nat) (d : Nat → Option String) (k : Nat), k ∈ order →
      (order.foldl (fun d i => dict_set d i (page_text engine images i)) d) k
        = some (page_text engine images k) := by
  intro order
  induction order with
  | nil => intro d k hk; simp at hk
  | cons j rest ih =>
    intro d k hk
    rw [List.foldl_cons]
    by_cases hmem : k ∈ rest
    · exact ih _ k hmem
    · have hkj : k = j := by
        rcases List.mem_cons.mp hk with h | h
        · exact h
        · exact absurd h hmem
      subst hkj
      exact collect_foldl_preserve engine images rest k _ (by simp [dict_set])

/-- An index that never completes stays absent from the dict. -/
theorem collect_foldl_absent {Img : Type} (engine : Img → OcrEngineResult)
    (images : List Img) :
    ∀ (order : List Nat) (d : Nat → Option String) (k : Nat), k ∉ order →
      (order.foldl (fun d i => dict_set d i (page_text engine images i)) d) k = d k := by
  intro order
  induction order with
  | nil => intro d k _; rfl
  | cons j rest ih =>
    intro d k hk
    rw [List.foldl_cons]
    have hkj : k ≠ j := fun h => hk (h ▸ List.mem_cons_self j rest)
    rw [ih _ k (fun h => hk (List.mem_cons.mpr (Or.inr h)))]
    simp [dict_set, hkj]

/-- When the completion order is a permutation of the submitted task
indices, every page index of the document is bound to its own text. -/
theorem collect_texts_covers {Img : Type} (engine : Img → OcrEngineResult)
    (images : List Img) (order : List Nat)
    (h : order.Perm (List.range images.length)) (i : Nat) (hi : i < images.length) :
    collect_texts engine images order i = some (page_text engine images i) := by
  apply collect_foldl_lookup
  rw [h.mem_iff]
  exact List.mem_range.mpr hi

/-- Both branches of the per-page handler report the 1-based page number. -/
theorem classify_page_page (m : DocModel) (i : Nat) (text : String) :
    (classify_page m i text).page = i + 1 := by
  unfold classify_page
  cases classify_attempt m text <;> rfl

/-- Both branches of the per-page handler report the extracted text's length. -/
theorem classify_page_text_length (m : DocModel) (i : Nat) (text : String) :
    (classify_page m i text).text_length = text.length := by
  unfold classify_page
  cases classify_attempt m text <;> rfl

/-- Entry `i` of the predictions list, before resolving the dict lookup. -/
theorem build_predictions_getElem {Img : Type} (m : DocModel)
    (engine : Img → OcrEngineResult) (images : List Img) (order : List Nat)
    (i : Nat) (hi : i < images.length) :
    (build_predictions m engine images order)[i]? =
      some (classify_page m i ((collect_texts engine images order i).getD "")) := by
  simp [build_predictions, List.getElem?_map, List.getElem?_range, hi]

/-- Entry `i` of the predictions list for a complete completion order. -/
theorem build_predictions_entry {Img : Type} (m : DocModel)
    (engine : Img → OcrEngineResult) (images : List Img) (order : List Nat)
    (h : order.Perm (List.range images.length)) (i : Nat) (hi : i < images.length) :
    (build_predictions m engine images order)[i]? =
      some (classify_page m i (page_text engine images i)) := by
  rw [build_predictions_getElem m engine images order i hi,
    collect_texts_covers engine images order h i hi]
  rfl

/-- The predictions list does not depend on the completion order, as long
as every submitted task completes exactly once. -/
theorem build_predictions_perm {Img : Type} (m : DocModel)
    (engine : Img → OcrEngineResult) (images : List Img) (o₁ o₂ : List Nat)
    (h₁ : o₁.Perm (List.range images.length))
    (h₂ : o₂.Perm (List.range images.length)) :
    build_predictions m engine images o₁ = build_predictions m engine images o₂ := by
  unfold build_predictions
  apply List.map_congr_left
  intro i hi
  have hlt : i < images.length := List.mem_range.mp hi
  rw [collect_texts_covers engine images o₁ h₁ i hlt,
    collect_texts_covers engine images o₂ h₂ i hlt]

/-! ## Claims -/

/-- Claim C1: for every request with N rasterized pages, the sequence of
page texts consumed by classification is the input page order, and two
runs that differ only in the order in which per-page OCR results are
collected produce the same output. -/
theorem claim_C1_output_independent_of_completion_order {Img : Type}
    (doc_model : Option DocModel) (engine : Img → OcrEngineResult)
    (hasFilePart : Bool) (filename : String) (saveFault : Option String)
    (images : List Img) (o₁ o₂ : List Nat)
    (h₁ : o₁.Perm (List.range images.length))
    (h₂ : o₂.Perm (List.range images.length)) :
    predict_document_type doc_model engine
        ⟨hasFilePart, filename, saveFault, Except.ok images, o₁⟩
      = predict_document_type doc_model engine
        ⟨hasFilePart, filename, saveFault, Except.ok images, o₂⟩
    ∧ (List.range images.length).map
        (fun i => (collect_texts engine images o₁ i).getD "")
      = (List.range images.length).map (page_text engine images) := by
  constructor
  · cases doc_model with
    | none => rfl
    | some m =>
      have hb := build_predictions_perm m engine images o₁ o₂ h₁ h₂
      simp only [predict_document_type, hb]
  · apply List.map_congr_left
    intro i hi
    rw [collect_texts_covers engine images o₁ h₁ i (List.mem_range.mp hi)]
    rfl

/-- Witness for C1 at a concrete three-page document and the reversed
completion order. -/
theorem claim_C1_witness :
    (([2, 0, 1] : List Nat).Perm (List.range 3)
      ∧ ([0, 1, 2] : List Nat).Perm (List.range 3))
    ∧ (predict_document_type
          (some ⟨"sk", fun _ => Except.ok ["Note"], none⟩)
          (fun n : Nat => OcrEngineResult.lines [⟨[], toString n, 1⟩])
          ⟨true, "doc.pdf", none, Except.ok [10, 20, 30], [2, 0, 1]⟩
        = predict_document_type
          (some ⟨"sk", fun _ => Except.ok ["Note"], none⟩)
          (fun n : Nat => OcrEngineResult.lines [⟨[], toString n, 1⟩])
          ⟨true, "doc.pdf", none, Except.ok [10, 20, 30], [0, 1, 2]⟩
      ∧ (List.range (3 : Nat)).map
          (fun i => (collect_texts (fun n : Nat => OcrEngineResult.lines [⟨[], toString n, 1⟩])
            [10, 20, 30] [2, 0, 1] i).getD "")
        = (List.range (3 : Nat)).map
          (page_text (fun n : Nat => OcrEngineResult.lines [⟨[], toString n, 1⟩]) [10, 20, 30])) :=
  ⟨⟨by decide, by decide⟩,
    claim_C1_output_independent_of_completion_order
      (some ⟨"sk", fun _ => Except.ok ["Note"], none⟩)
      (fun n : Nat => OcrEngineResult.lines [⟨[], toString n, 1⟩])
      true "doc.pdf" none [10, 20, 30] [2, 0, 1] [0, 1, 2] (by decide) (by decide)⟩

/-- Claim C2: every successfully processed N-page PDF yields exactly N
predictions whose page indices are 1, 2, ..., N in increasing order,
whatever the OCR engine and classifier do on individual pages. -/
theorem claim_C2_predictions_pages_contiguous {Img : Type} (m : DocModel)
    (engine : Img → OcrEngineResult) (req : PredictRequest Img) (images : List Img)
    (hfp : req.hasFilePart = true) (hfn : req.filename ≠ "")
    (hext : py_endswith (py_lower req.filename) ".pdf" = true)
    (hsave : req.saveFault = none) (hrast : req.rasterize = Except.ok images) :
    ∃ body : SuccessBody,
      (predict_document_type (some m) engine req).response = .success body
      ∧ body.predictions.length = images.length
      ∧ body.predictions.map Prediction.page = (List.range images.length).map (· + 1) := by
  refine ⟨⟨true, req.filename,
    (build_predictions m engine images req.completionOrder).length,
    build_predictions m engine images req.completionOrder⟩, ?_, ?_, ?_⟩
  · simp [predict_document_type, hfp, hfn, hext, hsave, hrast]
  · simp [build_predictions]
  · simp [build_predictions, List.map_map, Function.comp, classify_page_page]

/-- Witness for C2 on a two-page document whose second page faults in OCR
and whose classifier always faults. -/
theorem claim_C2_witness :
    ((true : Bool) = true ∧ ("a.pdf" : String) ≠ ""
      ∧ py_endswith (py_lower "a.pdf") ".pdf" = true
      ∧ (none : Option String) = none
      ∧ (Except.ok [10, 20] : Except String (List Nat)) = Except.ok [10, 20])
    ∧ ∃ body : SuccessBody,
      (predict_document_type
        (some ⟨"sk", fun _ => Except.error (), none⟩)
        (fun n : Nat => if n = 20 then OcrEngineResult.fault else OcrEngineResult.falsy)
        ⟨true, "a.pdf", none, Except.ok [10, 20], [1, 0]⟩).response = .success body
      ∧ body.predictions.length = ([10, 20] : List Nat).length
      ∧ body.predictions.map Prediction.page
        = (List.range ([10, 20] : List Nat).length).map (· + 1) :=
  ⟨⟨rfl, by decide, by decide, rfl, rfl⟩,
    claim_C2_predictions_pages_contiguous
      ⟨"sk", fun _ => Except.error (), none⟩
      (fun n : Nat => if n = 20 then OcrEngineResult.fault else OcrEngineResult.falsy)
      ⟨true, "a.pdf", none, Except.ok [10, 20], [1, 0]⟩ [10, 20]
      rfl (by decide) (by decide) rfl rfl⟩

/-- Claim C3: a page whose text recognition raises a fault gets the empty
string (so its prediction reports `text_length = 0`), every other page is
still extracted and classified from its own OCR result, and the final
assembly substitutes the empty string for any index absent from the
collected mapping. -/
theorem claim_C3_ocr_fault_isolated {Img : Type} (m : DocModel)
    (engine : Img → OcrEngineResult) (images : List Img) (order : List Nat)
    (i : Nat) (hi : i < images.length)
    (hfault : engine images[i] = OcrEngineResult.fault)
    (horder : order.Perm (List.range images.length)) :
    (∀ (j : Nat) (img : Img), engine img = OcrEngineResult.fault →
        ocr_page engine (j, img) = (j, ""))
    ∧ (build_predictions m engine images order)[i]? = some (classify_page m i "")
    ∧ (classify_page m i "").text_length = 0
    ∧ (∀ j, j < images.length →
        (build_predictions m engine images order)[j]? =
          some (classify_page m j (page_text engine images j)))
    ∧ (∀ (order₂ : List Nat) (k : Nat), k ∉ order₂ →
        (collect_texts engine images order₂ k).getD "" = "") := by
  have htext : page_text engine images i = "" := by
    unfold page_text
    rw [List.getElem?_eq_getElem hi]
    simp only [ocr_page, hfault]
  refine ⟨?_, ?_, ?_, ?_, ?_⟩
  · intro j img h
    unfold ocr_page
    rw [h]
  · rw [build_predictions_entry m engine images order horder i hi, htext]
  · rw [classify_page_text_length]
    rfl
  · intro j hj
    exact build_predictions_entry m engine images order horder j hj
  · intro order₂ k hk
    unfold collect_texts
    rw [collect_foldl_absent engine images order₂ _ k hk]
    rfl

/-- Witness for C3: two pages, the engine faults on the second image. -/
theorem claim_C3_witness :
    (1 < ([10, 20] : List Nat).length
      ∧ (fun n : Nat => if n = 20 then OcrEngineResult.fault else OcrEngineResult.falsy)
          (([10, 20] : List Nat)[1]) = OcrEngineResult.fault
      ∧ ([1, 0] : List Nat).Perm (List.range ([10, 20] : List Nat).length))
    ∧ ((∀ (j : Nat) (img : Nat),
          (fun n : Nat => if n = 20 then OcrEngineResult.fault else OcrEngineResult.falsy) img
              = OcrEngineResult.fault →
          ocr_page (fun n : Nat => if n = 20 then OcrEngineResult.fault else OcrEngineResult.falsy)
            (j, img) = (j, ""))
      ∧ (build_predictions ⟨"sk", fun _ => Except.ok ["Note"], none⟩
          (fun n : Nat => if n = 20 then OcrEngineResult.fault else OcrEngineResult.falsy)
          [10, 20] [1, 0])[1]? =
            some (classify_page ⟨"sk", fun _ => Except.ok ["Note"], none⟩ 1 "")
      ∧ (classify_page ⟨"sk", fun _ => Except.ok ["Note"], none⟩ 1 "").text_length = 0
      ∧ (∀ j, j < ([10, 20] : List Nat).length →
          (build_predictions ⟨"sk", fun _ => Except.ok ["Note"], none⟩
            (fun n : Nat => if n = 20 then OcrEngineResult.fault else OcrEngineResult.falsy)
            [10, 20] [1, 0])[j]? =
              some (classify_page ⟨"sk", fun _ => Except.ok ["Note"], none⟩ j
                (page_text (fun n : Nat => if n = 20 then OcrEngineResult.fault else OcrEngineResult.falsy)
                  [10, 20] j)))
      ∧ (∀ (order₂ : List Nat) (k : Nat), k ∉ order₂ →
          (collect_texts (fun n : Nat => if n = 20 then OcrEngineResult.fault else OcrEngineResult.falsy)
            [10, 20] order₂ k).getD "" = "")) :=
  ⟨⟨by decide, rfl, by decide⟩,
    claim_C3_ocr_fault_isolated ⟨"sk", fun _ => Except.ok ["Note"], none⟩
      (fun n : Nat => if n = 20 then OcrEngineResult.fault else OcrEngineResult.falsy)
      [10, 20] [1, 0] 1 (by decide) rfl (by decide)⟩

/-- Claim C4: a page whose classification raises a fault yields the
sentinel prediction with label `PREDICTION_ERROR`, absent confidence and
the extracted text's length, while every page still gets its own entry
and the list runs to completion. -/
theorem claim_C4_classification_fault_sentinel {Img : Type} (m : DocModel)
    (engine : Img → OcrEngineResult) (images : List Img) (order : List Nat)
    (i : Nat) (hi : i < images.length)
    (horder : order.Perm (List.range images.length))
    (hfault : classify_attempt m (page_text engine images i) = Except.error ()) :
    (build_predictions m engine images order).length = images.length
    ∧ (build_predictions m engine images order)[i]? =
        some ⟨i + 1, "PREDICTION_ERROR", none, (page_text engine images i).length⟩
    ∧ (∀ j, j < images.length →
        (build_predictions m engine images order)[j]? =
          some (classify_page m j (page_text engine images j))) := by
  refine ⟨by simp [build_predictions], ?_, ?_⟩
  · rw [build_predictions_entry m engine images order horder i hi]
    unfold classify_page
    rw [hfault]
  · intro j hj
    exact build_predictions_entry m engine images order horder j hj

/-- Witness for C4: the classifier raises on every input; the first of two
pages shows the sentinel entry. -/
theorem claim_C4_witness :
    (0 < ([10, 20] : List Nat).length
      ∧ ([1, 0] : List Nat).Perm (List.range ([10, 20] : List Nat).length)
      ∧ classify_attempt ⟨"sk", fun _ => Except.error (), none⟩
          (page_text (fun _ : Nat => OcrEngineResult.lines [⟨[], "deed", 1⟩]) [10, 20] 0)
          = Except.error ())
    ∧ ((build_predictions ⟨"sk", fun _ => Except.error (), none⟩
          (fun _ : Nat => OcrEngineResult.lines [⟨[], "deed", 1⟩]) [10, 20] [1, 0]).length
            = ([10, 20] : List Nat).length
      ∧ (build_predictions ⟨"sk", fun _ => Except.error (), none⟩
          (fun _ : Nat => OcrEngineResult.lines [⟨[], "deed", 1⟩]) [10, 20] [1, 0])[0]? =
            some ⟨0 + 1, "PREDICTION_ERROR", none,
              (page_text (fun _ : Nat => OcrEngineResult.lines [⟨[], "deed", 1⟩]) [10, 20] 0).length⟩
      ∧ (∀ j, j < ([10, 20] : List Nat).length →
          (build_predictions ⟨"sk", fun _ => Except.error (), none⟩
            (fun _ : Nat => OcrEngineResult.lines [⟨[], "deed", 1⟩]) [10, 20] [1, 0])[j]? =
              some (classify_page ⟨"sk", fun _ => Except.error (), none⟩ j
                (page_text (fun _ : Nat => OcrEngineResult.lines [⟨[], "deed", 1⟩]) [10, 20] j)))) :=
  ⟨⟨by decide, by decide, rfl⟩,
    claim_C4_classification_fault_sentinel ⟨"sk", fun _ => Except.error (), none⟩
      (fun _ : Nat => OcrEngineResult.lines [⟨[], "deed", 1⟩]) [10, 20] [1, 0] 0
      (by decide) (by decide) rfl⟩

/-- Python `max` over a non-empty sequence returns one of its elements. -/
theorem foldl_max_mem (cs : List ℚ) (c : ℚ) : cs.foldl max c ∈ c :: cs := by
  induction cs generalizing c with
  | nil => simp
  | cons d ds ih =>
    rw [List.foldl_cons]
    have h := ih (max c d)
    rcases List.mem_cons.mp h with h2 | h2
    · rw [h2]
      rcases max_choice c d with h1 | h1 <;> rw [h1] <;> simp
    · simp [h2]

/-- Python `max` over a non-empty sequence bounds every element. -/
theorem foldl_max_le (cs : List ℚ) (c : ℚ) : ∀ x ∈ c :: cs, x ≤ cs.foldl max c := by
  induction cs generalizing c with
  | nil => simp
  | cons d ds ih =>
    intro x hx
    rw [List.foldl_cons]
    rcases List.mem_cons.mp hx with rfl | hx2
    · exact le_trans (le_max_left x d) (ih (max x d) _ (List.mem_cons_self _ _))
    · rcases List.mem_cons.mp hx2 with rfl | hx3
      · exact le_trans (le_max_right c x) (ih (max c x) _ (List.mem_cons_self _ _))
      · exact ih (max c d) x (List.mem_cons.mpr (Or.inr hx3))

/-- Sequencing after a successful `Except` computation. -/
theorem except_bind_ok {α β : Type} (a : α) (f : α → Except Unit β) :
    (Except.ok a : Except Unit α) >>= f = f a := rfl

/-- Claim C5: on a fault-free classification of one page, a model with a
probability interface reports the maximum class probability of the
single-element batch as the confidence, and a model without one reports
an absent confidence (not zero) while the label is still returned. -/
theorem claim_C5_confidence_max_probability (m : DocModel) (i : Nat) (text : String)
    (label : String) (rest : List String)
    (hpred : m.predict [text] = Except.ok (label :: rest)) :
    (∀ pp, m.predict_proba = some pp →
      ∀ (c : ℚ) (cs : List ℚ) (rows : List (List ℚ)),
        pp [text] = Except.ok ((c :: cs) :: rows) →
        ∃ q : ℚ, classify_page m i text = ⟨i + 1, label, some q, text.length⟩
          ∧ q ∈ c :: cs ∧ ∀ x ∈ c :: cs, x ≤ q)
    ∧ (m.predict_proba = none →
        classify_page m i text = ⟨i + 1, label, none, text.length⟩) := by
  constructor
  · intro pp hpp c cs rows hrow
    refine ⟨cs.foldl max c, ?_, foldl_max_mem cs c, foldl_max_le cs c⟩
    simp [classify_page, classify_attempt, hpred, hpp, hrow, except_bind_ok]
  · intro hpp
    simp [classify_page, classify_attempt, hpred, hpp, except_bind_ok]

/-- Witness for C5 at a model with a three-class probability row and at a
model without a probability interface. -/
theorem claim_C5_witness :
    ((⟨"sk", fun _ => Except.ok ["Note"],
        some (fun _ => Except.ok [[(1 : ℚ) / 2, 3 / 4, 1 / 4]])⟩ : DocModel).predict ["hello"]
      = Except.ok ["Note"])
    ∧ ((∀ pp, (⟨"sk", fun _ => Except.ok ["Note"],
          some (fun _ => Except.ok [[(1 : ℚ) / 2, 3 / 4, 1 / 4]])⟩ : DocModel).predict_proba
            = some pp →
        ∀ (c : ℚ) (cs : List ℚ) (rows : List (List ℚ)),
          pp ["hello"] = Except.ok ((c :: cs) :: rows) →
          ∃ q : ℚ, classify_page ⟨"sk", fun _ => Except.ok ["Note"],
              some (fun _ => Except.ok [[(1 : ℚ) / 2, 3 / 4, 1 / 4]])⟩ 0 "hello"
              = ⟨0 + 1, "Note", some q, ("hello" : String).length⟩
            ∧ q ∈ c :: cs ∧ ∀ x ∈ c :: cs, x ≤ q)
      ∧ ((⟨"sk", fun _ => Except.ok ["Note"],
          some (fun _ => Except.ok [[(1 : ℚ) / 2, 3 / 4, 1 / 4]])⟩ : DocModel).predict_proba
            = none →
        classify_page ⟨"sk", fun _ => Except.ok ["Note"],
            some (fun _ => Except.ok [[(1 : ℚ) / 2, 3 / 4, 1 / 4]])⟩ 0 "hello"
          = ⟨0 + 1, "Note", none, ("hello" : String).length⟩)) :=
  ⟨rfl, claim_C5_confidence_max_probability
    ⟨"sk", fun _ => Except.ok ["Note"],
      some (fun _ => Except.ok [[(1 : ℚ) / 2, 3 / 4, 1 / 4]])⟩ 0 "hello" "Note" [] rfl⟩

/-- Claim C6: the `/predict` validation checks fire in order and
terminally: with no model loaded the response is 503 and neither the
form files nor the temporary file are touched; with a model loaded, a
missing file part, an empty filename or a non-PDF extension each yield
400 with no temporary file created; once all checks pass the upload is
persisted to the temporary file. -/
theorem claim_C6_validation_cascade {Img : Type} (engine : Img → OcrEngineResult)
    (req : PredictRequest Img) (m : DocModel) :
    (predict_document_type none engine req
      = ⟨.failure 503 "Document classification model not loaded. Cannot perform prediction." none,
          false, false, false⟩)
    ∧ (req.hasFilePart = false →
        predict_document_type (some m) engine req
          = ⟨.failure 400 "No file part in the request" none, true, false, false⟩)
    ∧ (req.hasFilePart = true → req.filename = "" →
        predict_document_type (some m) engine req
          = ⟨.failure 400 "No file selected for uploading" none, true, false, false⟩)
    ∧ (req.hasFilePart = true → req.filename ≠ "" →
        py_endswith (py_lower req.filename) ".pdf" = false →
        predict_document_type (some m) engine req
          = ⟨.failure 400 "Only PDF files are supported" none, true, false, false⟩)
    ∧ (req.hasFilePart = true → req.filename ≠ "" →
        py_endswith (py_lower req.filename) ".pdf" = true →
        (predict_document_type (some m) engine req).tempCreated = true) := by
  refine ⟨rfl, ?_, ?_, ?_, ?_⟩
  · intro h1
    simp [predict_document_type, h1]
  · intro h1 h2
    simp [predict_document_type, h1, h2]
  · intro h1 h2 h3
    simp [predict_document_type, h1, h2, h3]
  · intro h1 h2 h3
    unfold predict_document_type
    simp only [h1, h2, h3]
    cases req.saveFault <;> cases req.rasterize <;> simp

/-- Witness for C6: each branch of the cascade at a concrete request. -/
theorem claim_C6_witness :
    (predict_document_type none (fun _ : Nat => OcrEngineResult.falsy)
        ⟨true, "doc.pdf", none, Except.ok [], []⟩
      = ⟨.failure 503 "Document classification model not loaded. Cannot perform prediction." none,
          false, false, false⟩)
    ∧ (predict_document_type (some ⟨"sk", fun _ => Except.ok ["Note"], none⟩)
        (fun _ : Nat => OcrEngineResult.falsy) ⟨false, "doc.pdf", none, Except.ok [], []⟩
      = ⟨.failure 400 "No file part in the request" none, true, false, false⟩)
    ∧ (predict_document_type (some ⟨"sk", fun _ => Except.ok ["Note"], none⟩)
        (fun _ : Nat => OcrEngineResult.falsy) ⟨true, "", none, Except.ok [], []⟩
      = ⟨.failure 400 "No file selected for uploading" none, true, false, false⟩)
    ∧ (predict_document_type (some ⟨"sk", fun _ => Except.ok ["Note"], none⟩)
        (fun _ : Nat => OcrEngineResult.falsy) ⟨true, "doc.txt", none, Except.ok [], []⟩
      = ⟨.failure 400 "Only PDF files are supported" none, true, false, false⟩)
    ∧ (predict_document_type (some ⟨"sk", fun _ => Except.ok ["Note"], none⟩)
        (fun _ : Nat => OcrEngineResult.falsy)
        ⟨true, "doc.pdf", none, Except.ok [], []⟩).tempCreated = true :=
  ⟨(claim_C6_validation_cascade (fun _ : Nat => OcrEngineResult.falsy)
      ⟨true, "doc.pdf", none, Except.ok [], []⟩ ⟨"sk", fun _ => Except.ok ["Note"], none⟩).1,
    (claim_C6_validation_cascade (fun _ : Nat => OcrEngineResult.falsy)
      ⟨false, "doc.pdf", none, Except.ok [], []⟩
      ⟨"sk", fun _ => Except.ok ["Note"], none⟩).2.1 rfl,
    (claim_C6_validation_cascade (fun _ : Nat => OcrEngineResult.falsy)
      ⟨true, "", none, Except.ok [], []⟩
      ⟨"sk", fun _ => Except.ok ["Note"], none⟩).2.2.1 rfl rfl,
    (claim_C6_validation_cascade (fun _ : Nat => OcrEngineResult.falsy)
      ⟨true, "doc.txt", none, Except.ok [], []⟩
      ⟨"sk", fun _ => Except.ok ["Note"], none⟩).2.2.2.1 rfl (by decide) (by decide),
    (claim_C6_validation_cascade (fun _ : Nat => OcrEngineResult.falsy)
      ⟨true, "doc.pdf", none, Except.ok [], []⟩
      ⟨"sk", fun _ => Except.ok ["Note"], none⟩).2.2.2.2 rfl (by decide) (by decide)⟩

/-- Counterexample to claim C7 as stated: a request that passes validation
and whose `file.save` into the temporary file raises.  The temporary file
was created by `NamedTemporaryFile`, but `temp_path` was never bound, so
the `os.unlink(temp_path)` in the exception handler raises `NameError`,
the bare `except: pass` swallows it, and the file is not removed. -/
theorem claim_C7_counterexample :
    (predict_document_type (some ⟨"sk", fun _ => Except.ok ["Note"], none⟩)
      (fun _ : Nat => OcrEngineResult.falsy)
      ⟨true, "doc.pdf", some "disk full", Except.ok [], []⟩).tempCreated = true
    ∧ (predict_document_type (some ⟨"sk", fun _ => Except.ok ["Note"], none⟩)
      (fun _ : Nat => OcrEngineResult.falsy)
      ⟨true, "doc.pdf", some "disk full", Except.ok [], []⟩).tempRemoved = false :=
  ⟨rfl, rfl⟩

/-- Claim C7 as amended: for every request that reaches the processing
stage and whose upload is saved into the transient file without fault,
the file is removed before the handler returns, on the success path and
on every failure path. -/
theorem claim_C7_temp_file_removed {Img : Type} (m : DocModel)
    (engine : Img → OcrEngineResult) (req : PredictRequest Img)
    (hsave : req.saveFault = none) :
    (predict_document_type (some m) engine req).tempCreated = true →
    (predict_document_type (some m) engine req).tempRemoved = true := by
  unfold predict_document_type
  by_cases h1 : req.hasFilePart = false
  · simp [h1]
  · by_cases h2 : req.filename = ""
    · simp [h1, h2]
    · by_cases h3 : py_endswith (py_lower req.filename) ".pdf" = false
      · simp [h1, h2, h3]
      · rw [hsave]
        cases req.rasterize <;> simp [h1, h2, h3]

/-- Witness for the amended C7: a rasterization fault after a clean save
still removes the temporary file. -/
theorem claim_C7_witness :
    ((⟨true, "doc.pdf", none, Except.error "poppler failed", []⟩ :
        PredictRequest Nat).saveFault = none)
    ∧ (predict_document_type (some ⟨"sk", fun _ => Except.ok ["Note"], none⟩)
        (fun _ : Nat => OcrEngineResult.falsy)
        ⟨true, "doc.pdf", none, Except.error "poppler failed", []⟩).tempRemoved = true :=
  ⟨rfl, claim_C7_temp_file_removed ⟨"sk", fun _ => Except.ok ["Note"], none⟩
    (fun _ : Nat => OcrEngineResult.falsy)
    ⟨true, "doc.pdf", none, Except.error "poppler failed", []⟩ rfl rfl⟩

/-- Claim C8: with no model loaded, `/model-info` answers with
`model_loaded: false`; with a model loaded and a readable non-empty
sidecar metadata file present, it answers 200 with the five metadata
fields copied verbatim out of the sidecar dict (`supported_labels` from
the key `labels`). -/
theorem claim_C8_model_info_metadata (m : DocModel) (model_path : String)
    (sidecar : SidecarFile) (kv : List (String × String)) :
    ((model_info none model_path sidecar).body.model_loaded = false)
    ∧ (sidecar = SidecarFile.content kv → kv ≠ [] →
        (model_info (some m) model_path sidecar).status = 200
        ∧ (model_info (some m) model_path sidecar).body.model_loaded = true
        ∧ (model_info (some m) model_path sidecar).body.meta =
            some ⟨kv.lookup "accuracy", kv.lookup "training_samples",
              kv.lookup "test_samples", kv.lookup "labels",
              kv.lookup "min_accuracy_threshold"⟩) := by
  refine ⟨rfl, ?_⟩
  rintro rfl hkv
  cases kv with
  | nil => exact absurd rfl hkv
  | cons p ps => exact ⟨rfl, rfl, rfl⟩

/-- Witness for C8 at a concrete sidecar dict. -/
theorem claim_C8_witness :
    ((SidecarFile.content [("accuracy", "0.97"), ("labels", "Note Mortgage"),
        ("training_samples", "800")] : SidecarFile)
      = SidecarFile.content [("accuracy", "0.97"), ("labels", "Note Mortgage"),
        ("training_samples", "800")]
      ∧ ([("accuracy", "0.97"), ("labels", "Note Mortgage"), ("training_samples", "800")] :
          List (String × String)) ≠ [])
    ∧ ((model_info none "model.pkl"
        (SidecarFile.content [("accuracy", "0.97"), ("labels", "Note Mortgage"),
          ("training_samples", "800")])).body.model_loaded = false
      ∧ (model_info (some ⟨"sk", fun _ => Except.ok ["Note"], none⟩) "model.pkl"
          (SidecarFile.content [("accuracy", "0.97"), ("labels", "Note Mortgage"),
            ("training_samples", "800")])).status = 200
      ∧ (model_info (some ⟨"sk", fun _ => Except.ok ["Note"], none⟩) "model.pkl"
          (SidecarFile.content [("accuracy", "0.97"), ("labels", "Note Mortgage"),
            ("training_samples", "800")])).body.meta =
          some ⟨some "0.97", some "800", none, some "Note Mortgage", none⟩) :=
  ⟨⟨rfl, by decide⟩,
    (claim_C8_model_info_metadata ⟨"sk", fun _ => Except.ok ["Note"], none⟩ "model.pkl"
      (SidecarFile.content [("accuracy", "0.97"), ("labels", "Note Mortgage"),
        ("training_samples", "800")])
      [("accuracy", "0.97"), ("labels", "Note Mortgage"), ("training_samples", "800")]).1,
    ((claim_C8_model_info_metadata ⟨"sk", fun _ => Except.ok ["Note"], none⟩ "model.pkl"
      (SidecarFile.content [("accuracy", "0.97"), ("labels", "Note Mortgage"),
        ("training_samples", "800")])
      [("accuracy", "0.97"), ("labels", "Note Mortgage"), ("training_samples", "800")]).2
        rfl (by decide)).1,
    by
      have h := ((claim_C8_model_info_metadata
        ⟨"sk", fun _ => Except.ok ["Note"], none⟩ "model.pkl"
        (SidecarFile.content [("accuracy", "0.97"), ("labels", "Note Mortgage"),
          ("training_samples", "800")])
        [("accuracy", "0.97"), ("labels", "Note Mortgage"), ("training_samples", "800")]).2
          rfl (by decide)).2.2
      rw [h]
      rfl⟩

/-- Claim C9: once a request has a file part and a non-empty filename, the
PDF check rejects with the extension 400 exactly when the lowercased
filename does not end in `.pdf`; filenames ending in `.PDF` or `.Pdf` are
accepted. -/
theorem claim_C9_pdf_check_case_insensitive {Img : Type} (m : DocModel)
    (engine : Img → OcrEngineResult) (req : PredictRequest Img)
    (hfp : req.hasFilePart = true) (hfn : req.filename ≠ "") :
    ((predict_document_type (some m) engine req).response
        = .failure 400 "Only PDF files are supported" none
      ↔ py_endswith (py_lower req.filename) ".pdf" = false)
    ∧ py_endswith (py_lower "scan.PDF") ".pdf" = true
    ∧ py_endswith (py_lower "scan.Pdf") ".pdf" = true := by
  refine ⟨?_, by decide, by decide⟩
  cases hext : py_endswith (py_lower req.filename) ".pdf" with
  | false =>
    simp only [iff_true]
    simp [predict_document_type, hfp, hfn, hext]
  | true =>
    have hne : (predict_document_type (some m) engine req).response
        ≠ .failure 400 "Only PDF files are supported" none := by
      unfold predict_document_type
      simp only [hfp, hfn, hext]
      cases req.saveFault <;> cases req.rasterize <;> simp [hfn]
    simp [hne]

/-- Witness for C9: an uppercase `.PDF` upload is not rejected by the
extension check. -/
theorem claim_C9_witness :
    ((⟨true, "scan.PDF", none, Except.error "bad pdf", []⟩ :
        PredictRequest Nat).hasFilePart = true
      ∧ (⟨true, "scan.PDF", none, Except.error "bad pdf", []⟩ :
        PredictRequest Nat).filename ≠ "")
    ∧ (((predict_document_type (some ⟨"sk", fun _ => Except.ok ["Note"], none⟩)
          (fun _ : Nat => OcrEngineResult.falsy)
          ⟨true, "scan.PDF", none, Except.error "bad pdf", []⟩).response
        = .failure 400 "Only PDF files are supported" none
      ↔ py_endswith (py_lower "scan.PDF") ".pdf" = false)
      ∧ py_endswith (py_lower "scan.PDF") ".pdf" = true
      ∧ py_endswith (py_lower "scan.Pdf") ".pdf" = true) :=
  ⟨⟨rfl, by decide⟩,
    claim_C9_pdf_check_case_insensitive ⟨"sk", fun _ => Except.ok ["Note"], none⟩
      (fun _ : Nat => OcrEngineResult.falsy)
      ⟨true, "scan.PDF", none, Except.error "bad pdf", []⟩ rfl (by decide)⟩

/-- Claim C10: every success response has `success = true` and
`page_count` equal to the length of the predictions list, and a PDF that
rasterizes to zero pages yields a 200 success response with
`page_count = 0` and an empty predictions list. -/
theorem claim_C10_success_shape {Img : Type} (m : DocModel)
    (engine : Img → OcrEngineResult) (req : PredictRequest Img) (images : List Img)
    (hfp : req.hasFilePart = true) (hfn : req.filename ≠ "")
    (hext : py_endswith (py_lower req.filename) ".pdf" = true)
    (hsave : req.saveFault = none) (hrast : req.rasterize = Except.ok images) :
    ∃ body : SuccessBody,
      (predict_document_type (some m) engine req).response = .success body
      ∧ response_status (predict_document_type (some m) engine req).response = 200
      ∧ body.success = true
      ∧ body.page_count = body.predictions.length
      ∧ (images = [] → body = ⟨true, req.filename, 0, []⟩) := by
  have hresp : (predict_document_type (some m) engine req).response =
      .success ⟨true, req.filename,
        (build_predictions m engine images req.completionOrder).length,
        build_predictions m engine images req.completionOrder⟩ := by
    simp [predict_document_type, hfp, hfn, hext, hsave, hrast]
  refine ⟨⟨true, req.filename,
    (build_predictions m engine images req.completionOrder).length,
    build_predictions m engine images req.completionOrder⟩, hresp, ?_, rfl, rfl, ?_⟩
  · rw [hresp]
    rfl
  · rintro rfl
    simp [build_predictions]

/-- Witness for C10 at a PDF that rasterizes to zero pages. -/
theorem claim_C10_witness :
    ((true : Bool) = true ∧ ("empty.pdf" : String) ≠ ""
      ∧ py_endswith (py_lower "empty.pdf") ".pdf" = true
      ∧ (none : Option String) = none
      ∧ (Except.ok [] : Except String (List Nat)) = Except.ok [])
    ∧ ∃ body : SuccessBody,
      (predict_document_type (some ⟨"sk", fun _ => Except.ok ["Note"], none⟩)
        (fun _ : Nat => OcrEngineResult.falsy)
        ⟨true, "empty.pdf", none, Except.ok [], []⟩).response = .success body
      ∧ response_status (predict_document_type
          (some ⟨"sk", fun _ => Except.ok ["Note"], none⟩)
          (fun _ : Nat => OcrEngineResult.falsy)
          ⟨true, "empty.pdf", none, Except.ok [], []⟩).response = 200
      ∧ body.success = true
      ∧ body.page_count = body.predictions.length
      ∧ (([] : List Nat) = [] → body = ⟨true, "empty.pdf", 0, []⟩) :=
  ⟨⟨rfl, by decide, by decide, rfl, rfl⟩,
    claim_C10_success_shape ⟨"sk", fun _ => Except.ok ["Note"], none⟩
      (fun _ : Nat => OcrEngineResult.falsy)
      ⟨true, "empty.pdf", none, Except.ok [], []⟩ []
      rfl (by decide) (by decide) rfl rfl⟩

end CollateralAnalysis
